import Mathlib

set_option maxHeartbeats 1000000
set_option maxRecDepth 16384

/-!
Shallow embedding of the rustendo NES emulator core
(src/cpu.rs, src/bus.rs, src/mem.rs, src/opcodes.rs, src/rom.rs).

Machine integers are modelled as `Nat` with explicit wrapping (`% 256` for
`u8`, `% 65536` for `u16`) wherever the Rust code wraps.  Plain `u16`
additions of the source (for example `self.program_counter += 1`) are
modelled with the same `% 65536` reduction, i.e. with release-mode
two's-complement wrapping.  The CPU's private byte array and the bus's
2 KiB array are modelled as total functions `Nat → Nat`; the exact
partiality of the source arrays (the private array has only 0xFFFF cells,
and the bus's device-register arm is an unimplemented `todo!()`) is
modelled separately by the `*_checked` / `Option`-valued operations below.
-/

/-- Modelled from the spec: the flag register of `src/flags.rs`, which is
absent from the source tree (only its callers are present).  Spec 4.1:
eight named booleans at fixed bit positions — bit0 Carry, bit1 Zero,
bit2 InterruptDisable, bit3 Decimal, bit4 Break-marker, bit5
unused/always-1, bit6 Overflow, bit7 Negative. -/
structure Flags where
  carry : Bool
  zero : Bool
  interruptDisable : Bool
  decimalMode : Bool
  breakMark : Bool
  unused5 : Bool
  overflow : Bool
  negative : Bool
deriving DecidableEq

/-- `Flags::empty()`: all flags cleared. -/
def Flags.empty : Flags := ⟨false, false, false, false, false, false, false, false⟩

/-- bitflags `bits()`: pack the eight booleans into a byte at their fixed
bit positions. -/
def Flags.bits (f : Flags) : Nat :=
  (if f.carry then 1 else 0) + (if f.zero then 2 else 0) +
  (if f.interruptDisable then 4 else 0) + (if f.decimalMode then 8 else 0) +
  (if f.breakMark then 16 else 0) + (if f.unused5 then 32 else 0) +
  (if f.overflow then 64 else 0) + (if f.negative then 128 else 0)

/-- bitflags `from_bits_truncate`: all eight bits are named flags (spec 4.1),
so the byte is split into its eight bits. -/
def Flags.ofByte (v : Nat) : Flags :=
  ⟨v &&& 1 != 0, v &&& 2 != 0, v &&& 4 != 0, v &&& 8 != 0,
   v &&& 16 != 0, v &&& 32 != 0, v &&& 64 != 0, v &&& 128 != 0⟩

/-- Modelled from the spec: the addressing-mode enum of the missing
`src/addressing_mode.rs` (spec 4.2 and its uses in src/opcodes.rs and
src/cpu.rs): a closed set of variants. -/
inductive AddressingMode where
  | Immediate | ZeroPage | ZeroPage_X | ZeroPage_Y
  | Absolute | Absolute_X | Absolute_Y
  | Indirect_X | Indirect_Y | Implied
deriving DecidableEq

/-- `OpCode` of src/opcodes.rs (the `name` mnemonic, diagnostic only, is
omitted). -/
structure OpCode where
  code : Nat
  len : Nat
  addr_mode : AddressingMode
deriving DecidableEq

/-- The `OPS_CODES` vector of src/opcodes.rs, entry for entry in source
order: (opcode byte, instruction length, addressing mode).  The vector is
split into chunks purely to keep elaboration fast; the concatenation holds
the 256 entries in source order. -/
def opsChunk0 : List OpCode := [
  ⟨0xa9, 2, .Immediate⟩, ⟨0xa5, 2, .ZeroPage⟩, ⟨0xb5, 2, .ZeroPage_X⟩,
  ⟨0xad, 3, .Absolute⟩, ⟨0xbd, 3, .Absolute_X⟩, ⟨0xb9, 3, .Absolute_Y⟩,
  ⟨0xa1, 2, .Indirect_X⟩, ⟨0xb1, 2, .Indirect_Y⟩, ⟨0xa2, 2, .Immediate⟩,
  ⟨0xa6, 2, .ZeroPage⟩, ⟨0xb6, 2, .ZeroPage_Y⟩, ⟨0xae, 3, .Absolute⟩,
  ⟨0xbe, 3, .Absolute_Y⟩, ⟨0xa0, 2, .Immediate⟩, ⟨0xa4, 2, .ZeroPage⟩,
  ⟨0xb4, 2, .ZeroPage_X⟩, ⟨0xac, 3, .Absolute⟩, ⟨0xbc, 3, .Absolute_X⟩,
  ⟨0x85, 2, .ZeroPage⟩, ⟨0x95, 2, .ZeroPage_X⟩, ⟨0x8d, 3, .Absolute⟩,
  ⟨0x9d, 3, .Absolute_X⟩, ⟨0x99, 3, .Absolute_Y⟩, ⟨0x81, 2, .Indirect_X⟩,
  ⟨0x91, 2, .Indirect_Y⟩, ⟨0x86, 2, .ZeroPage⟩, ⟨0x96, 2, .ZeroPage_Y⟩,
  ⟨0x8e, 3, .Absolute⟩, ⟨0x84, 2, .ZeroPage⟩, ⟨0x94, 2, .ZeroPage_X⟩,
  ⟨0x8c, 3, .Absolute⟩, ⟨0x29, 2, .Immediate⟩ ]

def opsChunk1 : List OpCode := [
  ⟨0x25, 2, .ZeroPage⟩, ⟨0x35, 2, .ZeroPage_X⟩, ⟨0x2d, 3, .Absolute⟩,
  ⟨0x3d, 3, .Absolute_X⟩, ⟨0x39, 3, .Absolute_Y⟩, ⟨0x21, 2, .Indirect_X⟩,
  ⟨0x31, 2, .Indirect_Y⟩, ⟨0x09, 2, .Immediate⟩, ⟨0x05, 2, .ZeroPage⟩,
  ⟨0x15, 2, .ZeroPage_X⟩, ⟨0x0d, 3, .Absolute⟩, ⟨0x1d, 3, .Absolute_X⟩,
  ⟨0x19, 3, .Absolute_Y⟩, ⟨0x01, 2, .Indirect_X⟩, ⟨0x11, 2, .Indirect_Y⟩,
  ⟨0x49, 2, .Immediate⟩, ⟨0x45, 2, .ZeroPage⟩, ⟨0x55, 2, .ZeroPage_X⟩,
  ⟨0x4d, 3, .Absolute⟩, ⟨0x5d, 3, .Absolute_X⟩, ⟨0x59, 3, .Absolute_Y⟩,
  ⟨0x41, 2, .Indirect_X⟩, ⟨0x51, 2, .Indirect_Y⟩, ⟨0x24, 2, .ZeroPage⟩,
  ⟨0x2c, 3, .Absolute⟩, ⟨0xc9, 2, .Immediate⟩, ⟨0xc5, 2, .ZeroPage⟩,
  ⟨0xd5, 2, .ZeroPage_X⟩, ⟨0xcd, 3, .Absolute⟩, ⟨0xdd, 3, .Absolute_X⟩,
  ⟨0xd9, 3, .Absolute_Y⟩, ⟨0xc1, 2, .Indirect_X⟩ ]

def opsChunk2 : List OpCode := [
  ⟨0xd1, 2, .Indirect_Y⟩, ⟨0xc0, 2, .Immediate⟩, ⟨0xc4, 2, .ZeroPage⟩,
  ⟨0xcc, 3, .Absolute⟩, ⟨0xe0, 2, .Immediate⟩, ⟨0xe4, 2, .ZeroPage⟩,
  ⟨0xec, 3, .Absolute⟩, ⟨0x69, 2, .Immediate⟩, ⟨0x65, 2, .ZeroPage⟩,
  ⟨0x75, 2, .ZeroPage_X⟩, ⟨0x6d, 3, .Absolute⟩, ⟨0x7d, 3, .Absolute_X⟩,
  ⟨0x79, 3, .Absolute_Y⟩, ⟨0x61, 2, .Indirect_X⟩, ⟨0x71, 2, .Indirect_Y⟩,
  ⟨0xe9, 2, .Immediate⟩, ⟨0xe5, 2, .ZeroPage⟩, ⟨0xf5, 2, .ZeroPage_X⟩,
  ⟨0xed, 3, .Absolute⟩, ⟨0xfd, 3, .Absolute_X⟩, ⟨0xf9, 3, .Absolute_Y⟩,
  ⟨0xe1, 2, .Indirect_X⟩, ⟨0xf1, 2, .Indirect_Y⟩, ⟨0xd0, 2, .Implied⟩,
  ⟨0x70, 2, .Implied⟩, ⟨0x50, 2, .Implied⟩, ⟨0x30, 2, .Implied⟩,
  ⟨0xf0, 2, .Implied⟩, ⟨0xb0, 2, .Implied⟩, ⟨0x90, 2, .Implied⟩,
  ⟨0x10, 2, .Implied⟩, ⟨0x0a, 1, .Implied⟩ ]

def opsChunk3 : List OpCode := [
  ⟨0x06, 2, .ZeroPage⟩, ⟨0x16, 2, .ZeroPage_X⟩, ⟨0x0e, 3, .Absolute⟩,
  ⟨0x1e, 3, .Absolute_X⟩, ⟨0x2a, 1, .Implied⟩, ⟨0x26, 2, .ZeroPage⟩,
  ⟨0x36, 2, .ZeroPage_X⟩, ⟨0x2e, 3, .Absolute⟩, ⟨0x3e, 3, .Absolute_X⟩,
  ⟨0x6a, 1, .Implied⟩, ⟨0x66, 2, .ZeroPage⟩, ⟨0x76, 2, .ZeroPage_X⟩,
  ⟨0x6e, 3, .Absolute⟩, ⟨0x7e, 3, .Absolute_X⟩, ⟨0x4c, 3, .Implied⟩,
  ⟨0x6c, 3, .Implied⟩, ⟨0x20, 3, .Absolute⟩, ⟨0x60, 1, .Implied⟩,
  ⟨0xaa, 1, .Implied⟩, ⟨0xa8, 1, .Implied⟩, ⟨0xba, 1, .Implied⟩,
  ⟨0x8a, 1, .Implied⟩, ⟨0x9a, 1, .Implied⟩, ⟨0x98, 1, .Implied⟩,
  ⟨0xe8, 1, .Implied⟩, ⟨0xc8, 1, .Implied⟩, ⟨0xca, 1, .Implied⟩,
  ⟨0x88, 1, .Implied⟩, ⟨0xea, 1, .Implied⟩, ⟨0x48, 1, .Implied⟩,
  ⟨0x68, 1, .Implied⟩, ⟨0x08, 1, .Implied⟩ ]

def opsChunk4 : List OpCode := [
  ⟨0x28, 1, .Implied⟩, ⟨0xd8, 1, .Implied⟩, ⟨0x58, 1, .Implied⟩,
  ⟨0xb8, 1, .Implied⟩, ⟨0x18, 1, .Implied⟩, ⟨0x38, 1, .Implied⟩,
  ⟨0x78, 1, .Implied⟩, ⟨0xf8, 1, .Implied⟩, ⟨0x40, 1, .Implied⟩,
  ⟨0xc6, 2, .ZeroPage⟩, ⟨0xd6, 2, .ZeroPage_X⟩, ⟨0xce, 3, .Absolute⟩,
  ⟨0xde, 3, .Absolute_X⟩, ⟨0xe6, 2, .ZeroPage⟩, ⟨0xf6, 2, .ZeroPage_X⟩,
  ⟨0xee, 3, .Absolute⟩, ⟨0xfe, 3, .Absolute_X⟩, ⟨0x4a, 1, .Implied⟩,
  ⟨0x46, 2, .ZeroPage⟩, ⟨0x56, 2, .ZeroPage_X⟩, ⟨0x4e, 3, .Absolute⟩,
  ⟨0x5e, 3, .Absolute_X⟩, ⟨0x00, 1, .Implied⟩, ⟨0xc7, 2, .ZeroPage⟩,
  ⟨0xd7, 2, .ZeroPage_X⟩, ⟨0xcf, 3, .Absolute⟩, ⟨0xdf, 3, .Absolute_X⟩,
  ⟨0xdb, 3, .Absolute_Y⟩, ⟨0xd3, 2, .Indirect_Y⟩, ⟨0xc3, 2, .Indirect_X⟩,
  ⟨0x27, 2, .ZeroPage⟩, ⟨0x37, 2, .ZeroPage_X⟩ ]

def opsChunk5 : List OpCode := [
  ⟨0x2f, 3, .Absolute⟩, ⟨0x3f, 3, .Absolute_X⟩, ⟨0x3b, 3, .Absolute_Y⟩,
  ⟨0x33, 2, .Indirect_Y⟩, ⟨0x23, 2, .Indirect_X⟩, ⟨0x07, 2, .ZeroPage⟩,
  ⟨0x17, 2, .ZeroPage_X⟩, ⟨0x0f, 3, .Absolute⟩, ⟨0x1f, 3, .Absolute_X⟩,
  ⟨0x1b, 3, .Absolute_Y⟩, ⟨0x03, 2, .Indirect_X⟩, ⟨0x13, 2, .Indirect_Y⟩,
  ⟨0x47, 2, .ZeroPage⟩, ⟨0x57, 2, .ZeroPage_X⟩, ⟨0x4f, 3, .Absolute⟩,
  ⟨0x5f, 3, .Absolute_X⟩, ⟨0x5b, 3, .Absolute_Y⟩, ⟨0x43, 2, .Indirect_X⟩,
  ⟨0x53, 2, .Indirect_Y⟩, ⟨0x80, 2, .Immediate⟩, ⟨0x82, 2, .Immediate⟩,
  ⟨0x89, 2, .Immediate⟩, ⟨0xc2, 2, .Immediate⟩, ⟨0xe2, 2, .Immediate⟩,
  ⟨0xcb, 2, .Immediate⟩, ⟨0x6b, 2, .Immediate⟩, ⟨0xeb, 2, .Immediate⟩,
  ⟨0x0b, 2, .Immediate⟩, ⟨0x2b, 2, .Immediate⟩, ⟨0x4b, 2, .Immediate⟩,
  ⟨0x04, 2, .ZeroPage⟩, ⟨0x44, 2, .ZeroPage⟩ ]

def opsChunk6 : List OpCode := [
  ⟨0x64, 2, .ZeroPage⟩, ⟨0x14, 2, .ZeroPage_X⟩, ⟨0x34, 2, .ZeroPage_X⟩,
  ⟨0x54, 2, .ZeroPage_X⟩, ⟨0x74, 2, .ZeroPage_X⟩, ⟨0xd4, 2, .ZeroPage_X⟩,
  ⟨0xf4, 2, .ZeroPage_X⟩, ⟨0x0c, 3, .Absolute⟩, ⟨0x1c, 3, .Absolute_X⟩,
  ⟨0x3c, 3, .Absolute_X⟩, ⟨0x5c, 3, .Absolute_X⟩, ⟨0x7c, 3, .Absolute_X⟩,
  ⟨0xdc, 3, .Absolute_X⟩, ⟨0xfc, 3, .Absolute_X⟩, ⟨0x67, 2, .ZeroPage⟩,
  ⟨0x77, 2, .ZeroPage_X⟩, ⟨0x6f, 3, .Absolute⟩, ⟨0x7f, 3, .Absolute_X⟩,
  ⟨0x7b, 3, .Absolute_Y⟩, ⟨0x63, 2, .Indirect_X⟩, ⟨0x73, 2, .Indirect_Y⟩,
  ⟨0xe7, 2, .ZeroPage⟩, ⟨0xf7, 2, .ZeroPage_X⟩, ⟨0xef, 3, .Absolute⟩,
  ⟨0xff, 3, .Absolute_X⟩, ⟨0xfb, 3, .Absolute_Y⟩, ⟨0xe3, 2, .Indirect_X⟩,
  ⟨0xf3, 2, .Indirect_Y⟩, ⟨0x02, 1, .Implied⟩, ⟨0x12, 1, .Implied⟩,
  ⟨0x22, 1, .Implied⟩, ⟨0x32, 1, .Implied⟩ ]

def opsChunk7 : List OpCode := [
  ⟨0x42, 1, .Implied⟩, ⟨0x52, 1, .Implied⟩, ⟨0x62, 1, .Implied⟩,
  ⟨0x72, 1, .Implied⟩, ⟨0x92, 1, .Implied⟩, ⟨0xb2, 1, .Implied⟩,
  ⟨0xd2, 1, .Implied⟩, ⟨0xf2, 1, .Implied⟩, ⟨0x1a, 1, .Implied⟩,
  ⟨0x3a, 1, .Implied⟩, ⟨0x5a, 1, .Implied⟩, ⟨0x7a, 1, .Implied⟩,
  ⟨0xda, 1, .Implied⟩, ⟨0xfa, 1, .Implied⟩, ⟨0xab, 2, .Immediate⟩,
  ⟨0x8b, 2, .Immediate⟩, ⟨0xbb, 3, .Absolute_Y⟩, ⟨0x9b, 3, .Absolute_Y⟩,
  ⟨0x93, 2, .Indirect_Y⟩, ⟨0x9f, 3, .Absolute_Y⟩, ⟨0x9e, 3, .Absolute_Y⟩,
  ⟨0x9c, 3, .Absolute_X⟩, ⟨0xa7, 2, .ZeroPage⟩, ⟨0xb7, 2, .ZeroPage_Y⟩,
  ⟨0xaf, 3, .Absolute⟩, ⟨0xbf, 3, .Absolute_Y⟩, ⟨0xa3, 2, .Indirect_X⟩,
  ⟨0xb3, 2, .Indirect_Y⟩, ⟨0x87, 2, .ZeroPage⟩, ⟨0x97, 2, .ZeroPage_Y⟩,
  ⟨0x8f, 3, .Absolute⟩, ⟨0x83, 2, .Indirect_X⟩ ]

def OPS_CODES : List OpCode :=
  opsChunk0 ++ opsChunk1 ++ opsChunk2 ++ opsChunk3 ++ opsChunk4 ++ opsChunk5 ++ opsChunk6 ++ opsChunk7

/-- `OPS_CODES_MAP.get(&code)`: the map is built keyed by the `code` field
(src/opcodes.rs, the `lazy_static` block); opcode bytes are unique in the
vector, so first-match lookup agrees with the HashMap. -/
def opcodeLookup (code : Nat) : Option OpCode :=
  OPS_CODES.find? (fun o => o.code == code)

/-- `Bus` of src/bus.rs: 2 KiB of RAM (`cpu_vram: [u8; 2048]`), modelled as
a total function; the masked index `addr &&& 0x07FF` is always below 2048,
so the array itself is never indexed out of bounds. -/
structure Bus where
  cpu_vram : Nat → Nat

def Bus.new : Bus := ⟨fun _ => 0⟩

/-- `<Bus as Mem>::mem_read`.  The device-register arm
(0x2000..=0x3FFF) of the source is `todo!()`, i.e. a panic: modelled as
`none`.  The catch-all arm returns 0. -/
def Bus.mem_read (b : Bus) (addr : Nat) : Option Nat :=
  if addr ≤ 0x1FFF then some (b.cpu_vram (addr &&& 0x07FF))
  else if addr ≤ 0x3FFF then none
  else some 0

/-- `<Bus as Mem>::mem_write`: same region split as `mem_read`; the
catch-all arm does nothing. -/
def Bus.mem_write (b : Bus) (addr data : Nat) : Option Bus :=
  if addr ≤ 0x1FFF then
    some ⟨fun a => if a = addr &&& 0x07FF then data else b.cpu_vram a⟩
  else if addr ≤ 0x3FFF then none
  else some b

/-- `CPU` of src/cpu.rs, fields in source order.  The private byte array
`memory: [u8; 0xFFFF]` is modelled as a total function; its partiality at
address 0xFFFF (the array has 65535 cells, not 65536) is modelled exactly
by `CPU.mem_read_checked` / `CPU.mem_write_checked` below. -/
structure CPU where
  program_counter : Nat
  register_a : Nat
  register_x : Nat
  register_y : Nat
  status : Flags
  stack_pointer : Nat
  memory : Nat → Nat
  bus : Bus

/-- `CPU::new()`. -/
def CPU.new : CPU :=
  { program_counter := 0
    register_a := 0
    register_x := 0
    register_y := 0
    status := Flags.empty
    stack_pointer := 0xfd
    memory := fun _ => 0
    bus := Bus.new }

/-- Inherent `CPU::mem_read` (line 89): reads the PRIVATE array, not the
bus (total model). -/
def CPU.mem_read (c : CPU) (addr : Nat) : Nat := c.memory addr

/-- Inherent `CPU::mem_write` (line 93): writes the PRIVATE array (total
model). -/
def CPU.mem_write (c : CPU) (addr value : Nat) : CPU :=
  { c with memory := fun a => if a = addr then value else c.memory a }

/-- Exact model of `self.memory[addr as usize]`: the array literal
`[0; 0xFFFF]` has 0xFFFF = 65535 cells, so indexing at 0xFFFF is out of
bounds (`none`). -/
def CPU.mem_read_checked (c : CPU) (addr : Nat) : Option Nat :=
  if addr < 0xFFFF then some (c.memory addr) else none

/-- Exact model of `self.memory[addr as usize] = value`. -/
def CPU.mem_write_checked (c : CPU) (addr value : Nat) : Option CPU :=
  if addr < 0xFFFF then some (c.mem_write addr value) else none

/-- Inherent `CPU::mem_read_u16` (line 593): little-endian word read from
the private array; `addr + 1` is a plain `u16` addition, modelled with
16-bit wrapping. -/
def CPU.mem_read_u16 (c : CPU) (addr : Nat) : Nat :=
  let low := c.mem_read addr
  let high := c.mem_read ((addr + 1) % 65536)
  (high <<< 8) ||| low

/-- Inherent `CPU::mem_write_u16` (line 599). -/
def CPU.mem_write_u16 (c : CPU) (addr data : Nat) : CPU :=
  let low := data &&& 0xff
  let high := (data >>> 8) % 256
  (c.mem_write addr low).mem_write ((addr + 1) % 65536) high

/-- `CPU::read_zp_16` (line 607): NOTE the source computes the high-byte
address with `addr.wrapping_add(1)` on a `u16`, which wraps at 2^16 and
NOT within page zero: for `addr = 0xFF` the high byte is read from 0x0100. -/
def CPU.read_zp_16 (c : CPU) (addr : Nat) : Nat :=
  let low := c.mem_read addr
  let high := c.mem_read ((addr + 1) % 65536)
  (high <<< 8) ||| low

/-- `CPU::get_effective_addr` (line 52), including the `_ => 0` catch-all
for `Implied`. -/
def CPU.get_effective_addr (c : CPU) (addressing_mode : AddressingMode) : Nat :=
  match addressing_mode with
  | .Immediate => c.program_counter
  | .Absolute => c.mem_read_u16 c.program_counter
  | .ZeroPage => c.mem_read c.program_counter
  | .ZeroPage_X => (c.mem_read c.program_counter + c.register_x) % 256
  | .ZeroPage_Y => (c.mem_read c.program_counter + c.register_y) % 256
  | .Absolute_X => (c.mem_read_u16 c.program_counter + c.register_x) % 65536
  | .Absolute_Y => (c.mem_read_u16 c.program_counter + c.register_y) % 65536
  | .Indirect_X => c.read_zp_16 ((c.mem_read c.program_counter + c.register_x) % 256)
  | .Indirect_Y => (c.read_zp_16 (c.mem_read c.program_counter) + c.register_y) % 65536
  | .Implied => 0

/-- `CPU::reset` (line 97): note the stack pointer is NOT touched. -/
def CPU.reset (c : CPU) : CPU :=
  { c with
    register_a := 0
    register_x := 0
    register_y := 0
    status := Flags.empty
    program_counter := c.mem_read_u16 0xFFFC }

/-- u8 `wrapping_sub` for byte-valued operands (`b % 256` keeps the model
total on `Nat`). -/
def wsub8 (a b : Nat) : Nat := (a + 256 - b % 256) % 256

/-- `CPU::update_zero_and_negative_flag` (line 581). -/
def CPU.update_zero_and_negative_flag (c : CPU) (value : Nat) : CPU :=
  { c with status :=
      { c.status with zero := value == 0, negative := (value &&& 0x80) != 0 } }

/-- `CPU::stack_push` (line 541): write to 0x0100 + sp, then decrement sp
with byte wrapping. -/
def CPU.stack_push (c : CPU) (data : Nat) : CPU :=
  let c := c.mem_write (0x0100 + c.stack_pointer) data
  { c with stack_pointer := (c.stack_pointer + 255) % 256 }

/-- `CPU::stack_pop` (line 547): increment sp with byte wrapping, then
read from 0x0100 + sp. -/
def CPU.stack_pop (c : CPU) : Nat × CPU :=
  let c := { c with stack_pointer := (c.stack_pointer + 1) % 256 }
  (c.mem_read (0x0100 + c.stack_pointer), c)

/-- `CPU::lda` (line 115). -/
def CPU.lda (c : CPU) (addressing_mode : AddressingMode) : CPU :=
  let addr := c.get_effective_addr addressing_mode
  let value := c.mem_read addr
  let c := { c with register_a := value }
  c.update_zero_and_negative_flag c.register_a

/-- `CPU::ldy` (line 122). -/
def CPU.ldy (c : CPU) (addressing_mode : AddressingMode) : CPU :=
  let addr := c.get_effective_addr addressing_mode
  let value := c.mem_read addr
  ({ c with register_y := value }).update_zero_and_negative_flag value

/-- `CPU::ldx` (line 129). -/
def CPU.ldx (c : CPU) (addressing_mode : AddressingMode) : CPU :=
  let addr := c.get_effective_addr addressing_mode
  let value := c.mem_read addr
  ({ c with register_x := value }).update_zero_and_negative_flag value

/-- `CPU::sta` (line 136). -/
def CPU.sta (c : CPU) (addressing_mode : AddressingMode) : CPU :=
  c.mem_write (c.get_effective_addr addressing_mode) c.register_a

/-- `CPU::stx` (line 141). -/
def CPU.stx (c : CPU) (addressing_mode : AddressingMode) : CPU :=
  c.mem_write (c.get_effective_addr addressing_mode) c.register_x

/-- `CPU::sty` (line 146). -/
def CPU.sty (c : CPU) (addressing_mode : AddressingMode) : CPU :=
  c.mem_write (c.get_effective_addr addressing_mode) c.register_y

/-- `CPU::tax` (line 151). -/
def CPU.tax (c : CPU) : CPU :=
  let c := { c with register_x := c.register_a }
  c.update_zero_and_negative_flag c.register_x

/-- `CPU::txa` (line 156). -/
def CPU.txa (c : CPU) : CPU :=
  let c := { c with register_a := c.register_x }
  c.update_zero_and_negative_flag c.register_a

/-- `CPU::tay` (line 161). -/
def CPU.tay (c : CPU) : CPU :=
  let c := { c with register_y := c.register_a }
  c.update_zero_and_negative_flag c.register_y

/-- `CPU::tya` (line 166). -/
def CPU.tya (c : CPU) : CPU :=
  let c := { c with register_a := c.register_y }
  c.update_zero_and_negative_flag c.register_a

/-- `CPU::inx` (line 171): u8 wrapping_add(1). -/
def CPU.inx (c : CPU) : CPU :=
  let c := { c with register_x := (c.register_x + 1) % 256 }
  c.update_zero_and_negative_flag c.register_x

/-- `CPU::iny` (line 176). -/
def CPU.iny (c : CPU) : CPU :=
  let c := { c with register_y := (c.register_y + 1) % 256 }
  c.update_zero_and_negative_flag c.register_y

/-- `CPU::dey` (line 181): u8 wrapping_sub(1). -/
def CPU.dey (c : CPU) : CPU :=
  let c := { c with register_y := wsub8 c.register_y 1 }
  c.update_zero_and_negative_flag c.register_y

/-- `CPU::dex` (line 186). -/
def CPU.dex (c : CPU) : CPU :=
  let c := { c with register_x := wsub8 c.register_x 1 }
  c.update_zero_and_negative_flag c.register_x

/-- `CPU::and` (line 191). -/
def CPU.and (c : CPU) (addressing_mode : AddressingMode) : CPU :=
  let value := c.mem_read (c.get_effective_addr addressing_mode)
  let c := { c with register_a := c.register_a &&& value }
  c.update_zero_and_negative_flag c.register_a

/-- `CPU::ora` (line 198). -/
def CPU.ora (c : CPU) (addressing_mode : AddressingMode) : CPU :=
  let value := c.mem_read (c.get_effective_addr addressing_mode)
  let c := { c with register_a := c.register_a ||| value }
  c.update_zero_and_negative_flag c.register_a

/-- `CPU::eor` (line 205). -/
def CPU.eor (c : CPU) (addressing_mode : AddressingMode) : CPU :=
  let value := c.mem_read (c.get_effective_addr addressing_mode)
  let c := { c with register_a := c.register_a ^^^ value }
  c.update_zero_and_negative_flag c.register_a

/-- `CPU::bit` (line 212). -/
def CPU.bit (c : CPU) (addressing_mode : AddressingMode) : CPU :=
  let value := c.mem_read (c.get_effective_addr addressing_mode)
  let a := value &&& c.register_a
  let c := { c with status := { c.status with zero := a == 0 } }
  { c with status :=
      { c.status with
        overflow := (value &&& 0x40) != 0
        negative := (value &&& 0x80) != 0 } }

/-- `CPU::cmp` (line 227): Carry = (A >= operand); Zero/Negative from the
wrapping difference. -/
def CPU.cmp (c : CPU) (addressing_mode : AddressingMode) : CPU :=
  let value := c.mem_read (c.get_effective_addr addressing_mode)
  let c := { c with status := { c.status with carry := decide (value ≤ c.register_a) } }
  c.update_zero_and_negative_flag (wsub8 c.register_a value)

/-- `CPU::cpx` (line 241). -/
def CPU.cpx (c : CPU) (addressing_mode : AddressingMode) : CPU :=
  let value := c.mem_read (c.get_effective_addr addressing_mode)
  let c := { c with status := { c.status with carry := decide (value ≤ c.register_x) } }
  c.update_zero_and_negative_flag (wsub8 c.register_x value)

/-- `CPU::cpy` (line 255). -/
def CPU.cpy (c : CPU) (addressing_mode : AddressingMode) : CPU :=
  let value := c.mem_read (c.get_effective_addr addressing_mode)
  let c := { c with status := { c.status with carry := decide (value ≤ c.register_y) } }
  c.update_zero_and_negative_flag (wsub8 c.register_y value)

/-- `CPU::add_to_register_a` (line 553): 16-bit sum of A + value + carry;
Carry = sum > 0xFF; Overflow from the sign-bit formula on the OLD A. -/
def CPU.add_to_register_a (c : CPU) (value : Nat) : CPU :=
  let a := c.register_a
  let carry := if c.status.carry then 1 else 0
  let sum := a + value + carry
  let c := { c with status := { c.status with carry := decide (0xFF < sum) } }
  let result := sum % 256
  let c := { c with status :=
      { c.status with
        overflow := ((c.register_a ^^^ result) &&& (value ^^^ result) &&& 0x80) != 0 } }
  let c := { c with register_a := result }
  c.update_zero_and_negative_flag result

/-- `CPU::adc` (line 269). -/
def CPU.adc (c : CPU) (addressing_mode : AddressingMode) : CPU :=
  c.add_to_register_a (c.mem_read (c.get_effective_addr addressing_mode))

/-- `CPU::sbc` (line 275): adds the u8 bitwise complement of the operand. -/
def CPU.sbc (c : CPU) (addressing_mode : AddressingMode) : CPU :=
  c.add_to_register_a (c.mem_read (c.get_effective_addr addressing_mode) ^^^ 0xFF)

/-- `CPU::branch` (line 281): when the condition holds, read the signed
offset, consume the operand byte, and add the sign-extended offset with
16-bit wrapping; otherwise do nothing. -/
def CPU.branch (c : CPU) (condition : Bool) : CPU :=
  if condition then
    let value := c.mem_read c.program_counter
    let c := { c with program_counter := (c.program_counter + 1) % 65536 }
    let jump_addr :=
      (c.program_counter + (if value < 0x80 then value else 0xFF00 + value)) % 65536
    { c with program_counter := jump_addr }
  else c

/-- `CPU::asl_accumulator` (line 290). -/
def CPU.asl_accumulator (c : CPU) : CPU :=
  let carry := (c.register_a >>> 7) &&& 1
  let c := { c with register_a := (c.register_a <<< 1) % 256 }
  let c := { c with status := { c.status with carry := carry == 1 } }
  c.update_zero_and_negative_flag c.register_a

/-- `CPU::asl` (line 298). -/
def CPU.asl (c : CPU) (addressing_mode : AddressingMode) : CPU :=
  let addr := c.get_effective_addr addressing_mode
  let value := c.mem_read addr
  let carry := (value >>> 7) &&& 1
  let value := (value <<< 1) % 256
  let c := { c with status := { c.status with carry := carry == 1 } }
  let c := c.mem_write addr value
  c.update_zero_and_negative_flag value

/-- `CPU::lsr_accumulator` (line 312). -/
def CPU.lsr_accumulator (c : CPU) : CPU :=
  let carry := c.register_a &&& 0x01
  let c := { c with register_a := c.register_a >>> 1 }
  let c := { c with status := { c.status with carry := carry == 1 } }
  c.update_zero_and_negative_flag c.register_a

/-- `CPU::lsr` (line 320). -/
def CPU.lsr (c : CPU) (addressing_mode : AddressingMode) : CPU :=
  let addr := c.get_effective_addr addressing_mode
  let value := c.mem_read addr
  let carry := value &&& 0x01
  let c := { c with status := { c.status with carry := carry == 1 } }
  let value := value >>> 1
  let c := c.mem_write addr value
  c.update_zero_and_negative_flag value

/-- `CPU::rol_accumulator` (line 334). -/
def CPU.rol_accumulator (c : CPU) : CPU :=
  let old_carry := if c.status.carry then 1 else 0
  let new_carry := (c.register_a >>> 7) &&& 1
  let c := { c with status := { c.status with carry := new_carry == 1 } }
  let c := { c with register_a := ((c.register_a <<< 1) % 256) ||| old_carry }
  c.update_zero_and_negative_flag c.register_a

/-- `CPU::rol` (line 349). -/
def CPU.rol (c : CPU) (addressing_mode : AddressingMode) : CPU :=
  let addr := c.get_effective_addr addressing_mode
  let value := c.mem_read addr
  let old_carry := if c.status.carry then 1 else 0
  let new_carry := (value >>> 7) &&& 1
  let c := { c with status := { c.status with carry := new_carry == 1 } }
  let value := ((value <<< 1) % 256) ||| old_carry
  let c := c.mem_write addr value
  c.update_zero_and_negative_flag value

/-- `CPU::ror_accumulator` (line 368). -/
def CPU.ror_accumulator (c : CPU) : CPU :=
  let old_carry := if c.status.carry then 1 else 0
  let new_carry := c.register_a &&& 1
  let c := { c with status := { c.status with carry := new_carry == 1 } }
  let c := { c with register_a := (c.register_a >>> 1) ||| (old_carry <<< 7) }
  c.update_zero_and_negative_flag c.register_a

/-- `CPU::ror` (line 383). -/
def CPU.ror (c : CPU) (addressing_mode : AddressingMode) : CPU :=
  let addr := c.get_effective_addr addressing_mode
  let value := c.mem_read addr
  let old_carry := if c.status.carry then 1 else 0
  let new_carry := value &&& 1
  let c := { c with status := { c.status with carry := new_carry == 1 } }
  let value := (value >>> 1) ||| (old_carry <<< 7)
  let c := c.mem_write addr value
  c.update_zero_and_negative_flag value

/-- `CPU::jmp_absolute` (line 402). -/
def CPU.jmp_absolute (c : CPU) : CPU :=
  { c with program_counter := c.mem_read_u16 c.program_counter }

/-- `CPU::jmp_indirect` (line 407): when the operand address sits at a page
boundary (low byte 0xFF) the high target byte is read from the SAME page
(`addr & 0xFF00`), reproducing the 6502 page-boundary defect. -/
def CPU.jmp_indirect (c : CPU) : CPU :=
  let addr := c.mem_read_u16 c.program_counter
  let indirect_mem :=
    if addr &&& 0x00FF == 0x00FF then
      let low := c.mem_read addr
      let high := c.mem_read (addr &&& 0xFF00)
      (high <<< 8) ||| low
    else
      c.mem_read_u16 addr
  { c with program_counter := indirect_mem }

/-- `CPU::jsr` (line 425). -/
def CPU.jsr (c : CPU) : CPU :=
  let return_addr := (c.program_counter + 2 - 1) % 65536
  let high := (return_addr >>> 8) % 256
  let low := return_addr &&& 0xff
  let c := c.stack_push high
  let c := c.stack_push low
  let target_addr := c.mem_read_u16 c.program_counter
  { c with program_counter := target_addr }

/-- `CPU::rts` (line 439). -/
def CPU.rts (c : CPU) : CPU :=
  let (low, c) := c.stack_pop
  let (high, c) := c.stack_pop
  let return_addr := (high <<< 8) ||| low
  { c with program_counter := (return_addr + 1) % 65536 }

/-- `CPU::pha` (line 448). -/
def CPU.pha (c : CPU) : CPU := c.stack_push c.register_a

/-- `CPU::pla` (line 452). -/
def CPU.pla (c : CPU) : CPU :=
  let (value, c) := c.stack_pop
  let c := { c with register_a := value }
  c.update_zero_and_negative_flag c.register_a

/-- `CPU::php` (line 458): NOTE the source ORs the exported status byte
with `0x18`, i.e. it forces bits 3 and 4 (its own comment says
"turn on bit 4 and 5"). -/
def CPU.php (c : CPU) : CPU :=
  let status := c.status.bits
  let status := status ||| 0x18
  c.stack_push status

/-- `CPU::restore_status_from_stack` (line 527): pop a byte, force bit 5
to 1 (`|= 0x20`) and bit 4 to 0 (`&= !0b0001_0000`, u8 complement
0xEF), install as live flags. -/
def CPU.restore_status_from_stack (c : CPU) : CPU :=
  let (value, c) := c.stack_pop
  let value := value ||| 0x20
  let value := value &&& 0xEF
  { c with status := Flags.ofByte value }

/-- `CPU::plp` (line 464). -/
def CPU.plp (c : CPU) : CPU := c.restore_status_from_stack

/-- `CPU::clc` (line 468). -/
def CPU.clc (c : CPU) : CPU := { c with status := { c.status with carry := false } }

/-- `CPU::sec` (line 472). -/
def CPU.sec (c : CPU) : CPU := { c with status := { c.status with carry := true } }

/-- `CPU::cli` (line 476). -/
def CPU.cli (c : CPU) : CPU :=
  { c with status := { c.status with interruptDisable := false } }

/-- `CPU::sei` (line 480). -/
def CPU.sei (c : CPU) : CPU :=
  { c with status := { c.status with interruptDisable := true } }

/-- `CPU::clv` (line 484). -/
def CPU.clv (c : CPU) : CPU := { c with status := { c.status with overflow := false } }

/-- `CPU::cld` (line 488). -/
def CPU.cld (c : CPU) : CPU :=
  { c with status := { c.status with decimalMode := false } }

/-- `CPU::sed` (line 492). -/
def CPU.sed (c : CPU) : CPU :=
  { c with status := { c.status with decimalMode := true } }

/-- `CPU::dec` (line 496). -/
def CPU.dec (c : CPU) (addressing_mode : AddressingMode) : CPU :=
  let addr := c.get_effective_addr addressing_mode
  let value := wsub8 (c.mem_read addr) 1
  let c := c.mem_write addr value
  c.update_zero_and_negative_flag value

/-- `CPU::inc` (line 503). -/
def CPU.inc (c : CPU) (addressing_mode : AddressingMode) : CPU :=
  let addr := c.get_effective_addr addressing_mode
  let value := (c.mem_read addr + 1) % 256
  let c := c.mem_write addr value
  c.update_zero_and_negative_flag value

/-- `CPU::rti` (line 510). -/
def CPU.rti (c : CPU) : CPU :=
  let c := c.restore_status_from_stack
  let (low, c) := c.stack_pop
  let (high, c) := c.stack_pop
  { c with program_counter := (high <<< 8) ||| low }

/-- `CPU::tsx` (line 518). -/
def CPU.tsx (c : CPU) : CPU :=
  let c := { c with register_x := c.stack_pointer }
  c.update_zero_and_negative_flag c.register_x

/-- `CPU::txs` (line 523). -/
def CPU.txs (c : CPU) : CPU := { c with stack_pointer := c.register_x }

/-- Result of dispatching one opcode in `CPU::run`: `brk` is the
`0x00 => return` arm, `unimpl` is the `_ => todo!()` arm (a panic). -/
inductive ExecResult where
  | ok (c : CPU)
  | brk
  | unimpl

/-- Arm classifier for the dispatch `match opscode.code { ... }` of
`CPU::run` (line 628): one constructor per arm of the Rust match, in
source order (`unimpl` is the `_ => todo!()` arm). -/
inductive Instr where
  | iLda | iLdy | iLdx | iSta | iStx | iSty | iAnd | iEor | iOra | iBit
  | iCmp | iCpy | iCpx | iAdc | iSbc
  | iBcc | iBcs | iBeq | iBne | iBvs | iBvc | iBpl | iBmi
  | iAslAcc | iAsl | iRolAcc | iRol | iRorAcc | iRor | iDec | iInc
  | iLsrAcc | iLsr | iPla | iPhp | iPlp | iCld | iCli | iClv | iClc
  | iSec | iSei | iSed | iPha | iJmpAbs | iJmpInd | iJsr | iRts
  | iTax | iTxa | iTay | iTya | iInx | iIny | iDex | iDey | iRti
  | iTsx | iTxs | iNop | iBrk | iUnimpl
deriving DecidableEq

/-- Which arm of the `CPU::run` dispatch an opcode byte selects, testing
the literal groups of the Rust match in source order. -/
def decodeInstr (code : Nat) : Instr :=
  if code = 0xa9 ∨ code = 0xa5 ∨ code = 0xb5 ∨ code = 0xad ∨ code = 0xbd ∨ code = 0xb9 ∨ code = 0xa1 ∨ code = 0xb1 then .iLda
  else if code = 0xa0 ∨ code = 0xa4 ∨ code = 0xb4 ∨ code = 0xac ∨ code = 0xbc then .iLdy
  else if code = 0xa2 ∨ code = 0xa6 ∨ code = 0xb6 ∨ code = 0xae ∨ code = 0xbe then .iLdx
  else if code = 0x85 ∨ code = 0x95 ∨ code = 0x8d ∨ code = 0x9d ∨ code = 0x99 ∨ code = 0x81 ∨ code = 0x91 then .iSta
  else if code = 0x86 ∨ code = 0x96 ∨ code = 0x8e then .iStx
  else if code = 0x84 ∨ code = 0x94 ∨ code = 0x8c then .iSty
  else if code = 0x29 ∨ code = 0x25 ∨ code = 0x35 ∨ code = 0x2d ∨ code = 0x3d ∨ code = 0x39 ∨ code = 0x21 ∨ code = 0x31 then .iAnd
  else if code = 0x49 ∨ code = 0x45 ∨ code = 0x55 ∨ code = 0x4d ∨ code = 0x5d ∨ code = 0x59 ∨ code = 0x41 ∨ code = 0x51 then .iEor
  else if code = 0x09 ∨ code = 0x05 ∨ code = 0x15 ∨ code = 0x0d ∨ code = 0x1d ∨ code = 0x19 ∨ code = 0x01 ∨ code = 0x11 then .iOra
  else if code = 0x24 ∨ code = 0x2c then .iBit
  else if code = 0xc9 ∨ code = 0xc5 ∨ code = 0xd5 ∨ code = 0xcd ∨ code = 0xdd ∨ code = 0xd9 ∨ code = 0xc1 ∨ code = 0xd1 then .iCmp
  else if code = 0xc0 ∨ code = 0xc4 ∨ code = 0xcc then .iCpy
  else if code = 0xe0 ∨ code = 0xe4 ∨ code = 0xec then .iCpx
  else if code = 0x69 ∨ code = 0x65 ∨ code = 0x75 ∨ code = 0x6d ∨ code = 0x7d ∨ code = 0x79 ∨ code = 0x61 ∨ code = 0x71 then .iAdc
  else if code = 0xe9 ∨ code = 0xe5 ∨ code = 0xf5 ∨ code = 0xed ∨ code = 0xfd ∨ code = 0xf9 ∨ code = 0xe1 ∨ code = 0xf1 then .iSbc
  else if code = 0x90 then .iBcc
  else if code = 0xb0 then .iBcs
  else if code = 0xf0 then .iBeq
  else if code = 0xd0 then .iBne
  else if code = 0x70 then .iBvs
  else if code = 0x50 then .iBvc
  else if code = 0x10 then .iBpl
  else if code = 0x30 then .iBmi
  else if code = 0x0a then .iAslAcc
  else if code = 0x06 ∨ code = 0x16 ∨ code = 0x0e ∨ code = 0x1e then .iAsl
  else if code = 0x2a then .iRolAcc
  else if code = 0x26 ∨ code = 0x36 ∨ code = 0x2e ∨ code = 0x3e then .iRol
  else if code = 0x6a then .iRorAcc
  else if code = 0x66 ∨ code = 0x76 ∨ code = 0x6e ∨ code = 0x7e then .iRor
  else if code = 0xc6 ∨ code = 0xd6 ∨ code = 0xce ∨ code = 0xde then .iDec
  else if code = 0xe6 ∨ code = 0xf6 ∨ code = 0xee ∨ code = 0xfe then .iInc
  else if code = 0x4a then .iLsrAcc
  else if code = 0x46 ∨ code = 0x56 ∨ code = 0x4e ∨ code = 0x5e then .iLsr
  else if code = 0x68 then .iPla
  else if code = 0x08 then .iPhp
  else if code = 0x28 then .iPlp
  else if code = 0xd8 then .iCld
  else if code = 0x58 then .iCli
  else if code = 0xb8 then .iClv
  else if code = 0x18 then .iClc
  else if code = 0x38 then .iSec
  else if code = 0x78 then .iSei
  else if code = 0xf8 then .iSed
  else if code = 0x48 then .iPha
  else if code = 0x4c then .iJmpAbs
  else if code = 0x6c then .iJmpInd
  else if code = 0x20 then .iJsr
  else if code = 0x60 then .iRts
  else if code = 0xaa then .iTax
  else if code = 0x8a then .iTxa
  else if code = 0xa8 then .iTay
  else if code = 0x98 then .iTya
  else if code = 0xe8 then .iInx
  else if code = 0xc8 then .iIny
  else if code = 0xca then .iDex
  else if code = 0x88 then .iDey
  else if code = 0x40 then .iRti
  else if code = 0xba then .iTsx
  else if code = 0x9a then .iTxs
  else if code = 0xea then .iNop
  else if code = 0x00 then .iBrk
  else .iUnimpl

/-- The dispatch `match opscode.code { ... }` of `CPU::run` (line 628):
the arm selected by `decodeInstr` applied exactly as in the source
(`0xea => {}` is the identity, `0x00 => return` is `brk`,
`_ => todo!()` is `unimpl`). -/
def execInstr (code : Nat) (addressing_mode : AddressingMode) (c : CPU) : ExecResult :=
  match decodeInstr code with
  | .iLda => .ok (c.lda addressing_mode)
  | .iLdy => .ok (c.ldy addressing_mode)
  | .iLdx => .ok (c.ldx addressing_mode)
  | .iSta => .ok (c.sta addressing_mode)
  | .iStx => .ok (c.stx addressing_mode)
  | .iSty => .ok (c.sty addressing_mode)
  | .iAnd => .ok (c.and addressing_mode)
  | .iEor => .ok (c.eor addressing_mode)
  | .iOra => .ok (c.ora addressing_mode)
  | .iBit => .ok (c.bit addressing_mode)
  | .iCmp => .ok (c.cmp addressing_mode)
  | .iCpy => .ok (c.cpy addressing_mode)
  | .iCpx => .ok (c.cpx addressing_mode)
  | .iAdc => .ok (c.adc addressing_mode)
  | .iSbc => .ok (c.sbc addressing_mode)
  | .iBcc => .ok (c.branch (!c.status.carry))
  | .iBcs => .ok (c.branch c.status.carry)
  | .iBeq => .ok (c.branch c.status.zero)
  | .iBne => .ok (c.branch (!c.status.zero))
  | .iBvs => .ok (c.branch c.status.overflow)
  | .iBvc => .ok (c.branch (!c.status.overflow))
  | .iBpl => .ok (c.branch (!c.status.negative))
  | .iBmi => .ok (c.branch c.status.negative)
  | .iAslAcc => .ok c.asl_accumulator
  | .iAsl => .ok (c.asl addressing_mode)
  | .iRolAcc => .ok c.rol_accumulator
  | .iRol => .ok (c.rol addressing_mode)
  | .iRorAcc => .ok c.ror_accumulator
  | .iRor => .ok (c.ror addressing_mode)
  | .iDec => .ok (c.dec addressing_mode)
  | .iInc => .ok (c.inc addressing_mode)
  | .iLsrAcc => .ok c.lsr_accumulator
  | .iLsr => .ok (c.lsr addressing_mode)
  | .iPla => .ok c.pla
  | .iPhp => .ok c.php
  | .iPlp => .ok c.plp
  | .iCld => .ok c.cld
  | .iCli => .ok c.cli
  | .iClv => .ok c.clv
  | .iClc => .ok c.clc
  | .iSec => .ok c.sec
  | .iSei => .ok c.sei
  | .iSed => .ok c.sed
  | .iPha => .ok c.pha
  | .iJmpAbs => .ok c.jmp_absolute
  | .iJmpInd => .ok c.jmp_indirect
  | .iJsr => .ok c.jsr
  | .iRts => .ok c.rts
  | .iTax => .ok c.tax
  | .iTxa => .ok c.txa
  | .iTay => .ok c.tay
  | .iTya => .ok c.tya
  | .iInx => .ok c.inx
  | .iIny => .ok c.iny
  | .iDex => .ok c.dex
  | .iDey => .ok c.dey
  | .iRti => .ok c.rti
  | .iTsx => .ok c.tsx
  | .iTxs => .ok c.txs
  | .iNop => .ok c
  | .iBrk => .brk
  | .iUnimpl => .unimpl

/-- `self.program_counter += 1` right after the opcode fetch in
`CPU::run` (line 621). -/
def fetchBump (c : CPU) : CPU :=
  { c with program_counter := (c.program_counter + 1) % 65536 }

/-- Result of one iteration of the `CPU::run` loop: `halted` is the
`0x00 => return` path, `stuck` covers the two panicking paths (opcode
missing from the table: `.expect("opscode not found")`, and the
`_ => todo!()` dispatch arm). -/
inductive StepResult where
  | next (c : CPU)
  | halted (c : CPU)
  | stuck

/-- One iteration of `CPU::run` (line 613): fetch the opcode, bump the
counter, look up the descriptor, record the pre-execute counter, dispatch,
and auto-advance by (len - 1) only when the counter was not moved by the
instruction (i.e. still equals the pre-execute counter). -/
def runStep (c : CPU) : StepResult :=
  let code := c.mem_read c.program_counter
  let c1 := fetchBump c
  match opcodeLookup code with
  | none => .stuck
  | some opscode =>
    let old_program_counter := c1.program_counter
    match execInstr opscode.code opscode.addr_mode c1 with
    | .brk => .halted c1
    | .unimpl => .stuck
    | .ok c2 =>
      .next (if old_program_counter = c2.program_counter
        then { c2 with program_counter := (c2.program_counter + (opscode.len - 1)) % 65536 }
        else c2)

/-- `impl Mem for CPU` (line 20): the TRAIT implementation forwards every
access to the bus, unlike the inherent methods which use the private
array. -/
def CPU.trait_mem_read (c : CPU) (addr : Nat) : Option Nat :=
  c.bus.mem_read addr

/-- `impl Mem for CPU`, `mem_write`. -/
def CPU.trait_mem_write (c : CPU) (addr data : Nat) : Option CPU :=
  (c.bus.mem_write addr data).map (fun b => { c with bus := b })

/-- `Mirroring` of src/rom.rs. -/
inductive Mirroring where
  | VERTICAL | HORIZONTAL | FOUR_SCREEN
deriving DecidableEq

/-- `Rom` of src/rom.rs. -/
structure Rom where
  prg_rom : List Nat
  chr_rom : List Nat
  mapper : Nat
  screen_mirroring : Mirroring
deriving DecidableEq

/-- Outcome of `Rom::new`: `panicked` models an out-of-bounds index or
slice (the source uses unchecked indexing into `raw`), the two error
constructors are the two `Err(String)` returns of the source
(magic-tag mismatch, unsupported format version). -/
inductive RomResult where
  | panicked
  | errMagic
  | errVersion
  | ok (rom : Rom)
deriving DecidableEq

/-- `NES_TAG` of src/rom.rs. -/
def NES_TAG : List Nat := [0x4E, 0x45, 0x53, 0x1A]

/-- `PRG_ROM_PAGE_SIZE`. -/
def PRG_ROM_PAGE_SIZE : Nat := 16384

/-- `CHR_ROM_PAGE_SIZE`. -/
def CHR_ROM_PAGE_SIZE : Nat := 8192

/-- `Rom::new` (src/rom.rs line 24), with the source's panic points made
explicit: `&raw[0..=3]` needs 4 bytes, `raw[6]`/`raw[7]` need 8 bytes, and
the two `to_vec` slices need the declared regions in bounds.  NOTE the
source computes `chr_rom_size` with a bitwise AND (`&`) of
`CHR_ROM_PAGE_SIZE` where a multiplication was evidently intended; the
model reproduces the AND. -/
def Rom.new (raw : List Nat) : RomResult :=
  if raw.length < 4 then .panicked
  else if raw.take 4 ≠ NES_TAG then .errMagic
  else if raw.length < 8 then .panicked
  else
    let mapper := (raw.getD 7 0 &&& 0xF0) ||| (raw.getD 6 0 >>> 4)
    let ines_ver := (raw.getD 7 0 >>> 2) &&& 0b11
    if ines_ver ≠ 0 then .errVersion
    else
      let four_screen := raw.getD 6 0 &&& 0b1000 ≠ 0
      let vertical_mirroring := raw.getD 6 0 &&& 0b1 ≠ 0
      let screen_mirroring :=
        if four_screen then Mirroring.FOUR_SCREEN
        else if vertical_mirroring then Mirroring.VERTICAL
        else Mirroring.HORIZONTAL
      let prg_rom_size := raw.getD 4 0 * PRG_ROM_PAGE_SIZE
      let chr_rom_size := raw.getD 5 0 &&& CHR_ROM_PAGE_SIZE
      let trainer := raw.getD 6 0 &&& 0b100 ≠ 0
      let prg_rom_start := 16 + if trainer then 512 else 0
      let chr_rom_start := prg_rom_start + prg_rom_size
      if raw.length < prg_rom_start + prg_rom_size then .panicked
      else if raw.length < chr_rom_start + chr_rom_size then .panicked
      else .ok
        { mapper := mapper
          prg_rom := ((raw.drop prg_rom_start).take prg_rom_size)
          chr_rom := ((raw.drop chr_rom_start).take chr_rom_size)
          screen_mirroring := screen_mirroring }

/-! Helper definitions for stating and witnessing the claims. -/

/-- Byte memory seeded from a program list (unset cells read 0), mirroring
a zeroed private array with a program written at address 0. -/
def memOf (l : List Nat) : Nat → Nat := fun a => l.getD a 0

/-- Program counter of a step result (0 for the stuck/panicking paths). -/
def StepResult.pcOf : StepResult → Nat
  | .next c => c.program_counter
  | .halted c => c.program_counter
  | .stuck => 0

/-- Whether a step result continues the loop. -/
def StepResult.isNext : StepResult → Bool
  | .next _ => true
  | _ => false

/-- The 8 conditional-branch opcodes of the dispatch. -/
def isBranch (code : Nat) : Bool :=
  code == 0x90 || code == 0xb0 || code == 0xf0 || code == 0xd0 ||
  code == 0x70 || code == 0x50 || code == 0x10 || code == 0x30

/-- The condition the dispatch passes to `CPU::branch` for each branch
opcode (src/cpu.rs lines 658-665). -/
def branchCond (code : Nat) (f : Flags) : Bool :=
  if code == 0x90 then !f.carry
  else if code == 0xb0 then f.carry
  else if code == 0xf0 then f.zero
  else if code == 0xd0 then !f.zero
  else if code == 0x70 then f.overflow
  else if code == 0x50 then !f.overflow
  else if code == 0x10 then !f.negative
  else if code == 0x30 then f.negative
  else false

/-- CPU about to execute a NOP. -/
def cNop : CPU := { CPU.new with memory := memOf [0xea] }

/-- CPU about to execute `JMP $0001` at address 0: the jump target equals
the pre-execute counter. -/
def cJmp : CPU := { CPU.new with memory := memOf [0x4c, 0x01, 0x00] }

/-- CPU about to execute `BCC +5` with the carry flag set (branch not
taken). -/
def cBcc : CPU := { CPU.new with
  memory := memOf [0x90, 0x05]
  status := { Flags.empty with carry := true } }

/-- Memory for the zero-page pointer test: pointer byte at 0xFF, page-zero
start at 0x00, next-page byte at 0x100 all distinct. -/
def cZpMem : Nat → Nat := fun a =>
  if a = 0xFF then 0x34 else if a = 0x100 then 0xAB else
  if a = 0x00 then 0xCD else 0

/-- CPU for the zero-page pointer test. -/
def cZp : CPU := { CPU.new with memory := cZpMem }

/-- CPU whose next Indirect-Y operand byte is the zero-page pointer 0xFF. -/
def cZp2 : CPU := { cZp with
  program_counter := 0x200
  memory := fun a => if a = 0x200 then 0xFF else cZpMem a }

/-- CPU with accumulator 0x7F and empty flags (for the add-with-carry
overflow instance). -/
def cAdc : CPU := { CPU.new with register_a := 0x7F }

/-- Memory for the indirect-jump test: JMP ($02FF) at 0, with
[$02FF]=0x11, [$0300]=0x22, [$0200]=0x33. -/
def cJIMem : Nat → Nat := fun a =>
  if a = 0 then 0xFF else if a = 1 then 0x02 else
  if a = 0x02FF then 0x11 else if a = 0x0300 then 0x22 else
  if a = 0x0200 then 0x33 else 0

/-- CPU for the indirect-jump page-bug test. -/
def cJI : CPU := { CPU.new with memory := cJIMem }

/-- A minimal well-formed iNES image: correct tag, all header counts 0. -/
def validRom : List Nat :=
  [0x4E, 0x45, 0x53, 0x1A, 0, 0, 0, 0, 0, 0, 0, 0, 0, 0, 0, 0]

/-- End of the header-declared character region of an image (first byte
past the chr slice taken by `Rom::new`): both `to_vec` slices are in
bounds exactly when this is at most the input length. -/
def romChrEnd (raw : List Nat) : Nat :=
  (16 + if raw.getD 6 0 &&& 0b100 ≠ 0 then 512 else 0) +
    raw.getD 4 0 * PRG_ROM_PAGE_SIZE + (raw.getD 5 0 &&& CHR_ROM_PAGE_SIZE)

/-- Claim C3: for every CPU state, the push-status instruction (PHP) pushes the
live flags byte ORed with 0x18 — i.e. with bits 3 and 4 forced to 1, NOT
bits 4 and 5 as the claim (and the source's own comment, line 460) state —
and leaves the live flags unchanged.  Evaluated at the failing input
(empty flags): the pushed byte is 0x18, whose bit 5 is clear and whose
bit 3 (Decimal) is wrongly set; the claim requires 0x30. -/
theorem c3_php_pushes_bits3_and_4 :
    (CPU.php CPU.new).memory (0x0100 + 0xfd) = 0x18 ∧
    (CPU.php CPU.new).status = CPU.new.status ∧
    (0x18 : Nat) ≠ 0x30 ∧ (0x18 : Nat) &&& 0x20 = 0 ∧ (0x18 : Nat) &&& 0x08 ≠ 0 := by
  decide

/-- Claim C4: a zero-page pointer located at 0xFF does NOT wrap within page
zero: `read_zp_16` computes the high-byte address with `u16`
`wrapping_add(1)`, so it reads address 0x0100, not 0x0000.  With
[$FF]=0x34, [$100]=0xAB, [$00]=0xCD the dereferenced base (also via the
Indirect-Y resolver) is 0xAB34, where the claim requires 0xCD34. -/
theorem c4_zp_pointer_no_page_wrap :
    CPU.read_zp_16 cZp 0xFF = 0xAB34 ∧
    CPU.get_effective_addr cZp2 .Indirect_Y = 0xAB34 ∧
    cZp.memory 0x0100 = 0xAB ∧ cZp.memory 0x0000 = 0xCD ∧
    (0xAB34 : Nat) ≠ 0xCD34 := by
  decide

/-- Claim C6: byte access is NOT total over the 16-bit space: the CPU's private
array has 0xFFFF = 65535 cells (its own comment says 65536), so reading
or writing address 0xFFFF is out of bounds, and the Bus hits the
unimplemented `todo!()` branch for every address in 0x2000–0x3FFF; reads
at 0xFFFE and 0x1FFF succeed. -/
theorem c6_memory_not_total :
    CPU.mem_read_checked CPU.new 0xFFFE = some 0 ∧
    CPU.mem_read_checked CPU.new 0xFFFF = none ∧
    (CPU.mem_write_checked CPU.new 0xFFFF 1).isSome = false ∧
    Bus.mem_read Bus.new 0x2000 = none ∧
    (Bus.mem_write Bus.new 0x2000 0).isSome = false ∧
    Bus.mem_read Bus.new 0x1FFF = some 0 := by
  decide

/-- Claim C7 (amended): after `reset`, accumulator/X/Y are 0, the flags are
cleared, and the program counter equals the little-endian word stored at
0xFFFC; `reset` leaves the stack pointer UNCHANGED — the 0xFD value is
established only at construction (`CPU::new`). -/
theorem c7_reset_amended (c : CPU) :
    (CPU.reset c).register_a = 0 ∧ (CPU.reset c).register_x = 0 ∧
    (CPU.reset c).register_y = 0 ∧ (CPU.reset c).status = Flags.empty ∧
    (CPU.reset c).program_counter = c.mem_read_u16 0xFFFC ∧
    (CPU.reset c).stack_pointer = c.stack_pointer ∧
    CPU.new.stack_pointer = 0xFD :=
  ⟨rfl, rfl, rfl, rfl, rfl, rfl, rfl⟩

/-- Claim C7 counterexample: a CPU whose stack pointer is 0 still has stack
pointer 0 (not 0xFD) after `reset`. -/
theorem c7_reset_sp_counterexample :
    (CPU.reset { CPU.new with stack_pointer := 0 }).stack_pointer = 0 ∧
    (0 : Nat) ≠ 0xFD := by
  decide

/-! Helper lemmas shared by the claim theorems. -/

/-- Bit concatenation: for a byte-sized low part, shift-or is plain
arithmetic. -/
lemma lor_shift8 (hi lo : Nat) (hlo : lo < 256) : (hi <<< 8) ||| lo = 256 * hi + lo := by
  have hlo' : lo < 2 ^ 8 := by norm_num [hlo]
  calc hi <<< 8 ||| lo = 2 ^ 8 * hi ||| lo := by rw [Nat.shiftLeft_eq, Nat.mul_comm]
    _ = 2 ^ 8 * hi + lo := (Nat.mul_add_lt_is_or hlo' hi).symm
    _ = 256 * hi + lo := by norm_num

/-- Masking a 16-bit value with 0xFF00 zeroes its low byte. -/
lemma and_ff00_eq (n : Nat) (hn : n < 65536) : n &&& 0xFF00 = 256 * (n / 256) := by
  apply Nat.eq_of_testBit_eq
  intro j
  rw [Nat.testBit_and]
  rw [show (0xFF00 : Nat) = (2 ^ 8 - 1) <<< 8 by decide]
  rw [Nat.testBit_shiftLeft, Nat.testBit_two_pow_sub_one]
  rw [show (256 : Nat) * (n / 256) = (n >>> 8) <<< 8 by
        rw [Nat.shiftLeft_eq, Nat.shiftRight_eq_div_pow]
        norm_num [Nat.mul_comm]]
  rw [Nat.testBit_shiftLeft, Nat.testBit_shiftRight]
  by_cases h8 : 8 ≤ j
  · by_cases h16 : j < 16
    · simp [ge_iff_le, h8, show 8 + (j - 8) = j by omega, show j - 8 < 8 by omega]
    · have hb : n.testBit j = false := by
        apply Nat.testBit_eq_false_of_lt
        calc n < 65536 := hn
          _ = 2 ^ 16 := by norm_num
          _ ≤ 2 ^ j := Nat.pow_le_pow_right (by norm_num) (by omega)
      simp [ge_iff_le, h8, hb, show ¬ (j - 8 < 8) by omega]
  · simp [ge_iff_le, h8]

/-- The memory of `cJI` holds bytes only. -/
lemma cJIMem_lt : ∀ a, cJI.memory a < 256 := by
  intro a
  show cJIMem a < 256
  unfold cJIMem
  split_ifs <;> decide

/-- `CPU::branch` never touches the bus. -/
lemma branch_bus (c : CPU) (cond : Bool) : (CPU.branch c cond).bus = c.bus := by
  cases cond <;> rfl

/-- `CPU::branch` commutes with replacing the bus. -/
lemma branch_bus_congr (c : CPU) (b : Bus) (cond : Bool) :
    CPU.branch { c with bus := b } cond = { CPU.branch c cond with bus := b } := by
  cases cond <;> rfl

/-- Every successfully dispatched instruction leaves the bus unchanged. -/
lemma exec_ok_bus {k : Nat} {mode : AddressingMode} {c c2 : CPU}
    (h : execInstr k mode c = ExecResult.ok c2) : c2.bus = c.bus := by
  unfold execInstr at h
  rcases hd : decodeInstr k <;> rw [hd] at h <;>
    first
      | (cases h; rfl)
      | (cases h; exact branch_bus _ _)
      | (cases h)

/-- Dispatch commutes with replacing the bus: instruction execution never
reads the bus either. -/
lemma exec_bus_congr (k : Nat) (mode : AddressingMode) (c : CPU) (b : Bus) :
    execInstr k mode { c with bus := b } =
      (match execInstr k mode c with
       | .ok c2 => .ok { c2 with bus := b }
       | .brk => .brk
       | .unimpl => .unimpl) := by
  unfold execInstr
  rcases hd : decodeInstr k <;>
    first
      | rfl
      | (exact congrArg ExecResult.ok (branch_bus_congr _ _ _))

/-- Every branch opcode is in the table with length 2 and Implied mode. -/
lemma lookup_branch (k : Nat) (hk : isBranch k = true) :
    opcodeLookup k = some ⟨k, 2, .Implied⟩ := by
  unfold isBranch at hk
  simp only [Bool.or_eq_true, beq_iff_eq] at hk
  rcases hk with ((((((h | h) | h) | h) | h) | h) | h) | h <;> subst h <;> decide

/-- Dispatching a branch opcode runs `CPU::branch` on its condition. -/
lemma exec_branch (k : Nat) (hk : isBranch k = true) (c : CPU) :
    execInstr k .Implied c = .ok (CPU.branch c (branchCond k c.status)) := by
  unfold isBranch at hk
  simp only [Bool.or_eq_true, beq_iff_eq] at hk
  rcases hk with ((((((h | h) | h) | h) | h) | h) | h) | h <;> subst h <;> rfl

/-- A branch whose condition is false does nothing. -/
lemma branch_false (c : CPU) (cond : Bool) (h : cond = false) :
    CPU.branch c cond = c := by
  subst h; rfl

/-- Claim C1 (amended): in every iteration of the run loop, if after
dispatch the counter still equals the pre-execute counter recorded just
after the opcode fetch, the counter is advanced by (instruction length
− 1); an instruction that sets the counter to a value DIFFERENT from the
pre-execute counter is not auto-advanced (one that happens to set it
exactly to the pre-execute counter is still auto-advanced — the loop
cannot tell the cases apart); and a branch that is not taken still
consumes its operand byte, so the counter advances by 2 in total. -/
theorem c1_pc_advance_amended (c : CPU) :
    (∀ op c2, opcodeLookup (c.mem_read c.program_counter) = some op →
      execInstr op.code op.addr_mode (fetchBump c) = ExecResult.ok c2 →
      ((c2.program_counter = (fetchBump c).program_counter →
         runStep c = StepResult.next
           { c2 with program_counter := (c2.program_counter + (op.len - 1)) % 65536 }) ∧
       (c2.program_counter ≠ (fetchBump c).program_counter →
         runStep c = StepResult.next c2))) ∧
    (∀ code, code = c.mem_read c.program_counter → isBranch code = true →
      branchCond code c.status = false →
      (runStep c).pcOf = (c.program_counter + 2) % 65536 ∧
      (runStep c).isNext = true) := by
  constructor
  · intro op c2 hop hex
    constructor
    · intro hpc
      unfold runStep
      dsimp only
      rw [hop]
      dsimp only
      rw [hex]
      dsimp only
      rw [if_pos hpc.symm]
    · intro hpc
      unfold runStep
      dsimp only
      rw [hop]
      dsimp only
      rw [hex]
      dsimp only
      rw [if_neg (fun hh => hpc hh.symm)]
  · intro code hcode hbr hcond
    unfold runStep
    dsimp only
    rw [← hcode]
    rw [lookup_branch code hbr]
    dsimp only
    rw [exec_branch code hbr]
    have hcond' : branchCond code (fetchBump c).status = false := hcond
    rw [branch_false _ _ hcond']
    dsimp only
    rw [if_pos rfl]
    constructor
    · dsimp only [StepResult.pcOf, fetchBump]
      omega
    · rfl

/-- Claim C1 witness: a BCC at address 0 with the carry flag set (branch
not taken) leaves the loop at counter 2 after one step. -/
theorem c1_pc_advance_amended_witness :
    (runStep cBcc).pcOf = (cBcc.program_counter + 2) % 65536 ∧
    (runStep cBcc).isNext = true :=
  (c1_pc_advance_amended cBcc).2 0x90 (by decide) (by decide) (by decide)

/-- Claim C1 counterexample: `JMP $0001` at address 0 sets the counter to
its own operand address 0x0001, which equals the pre-execute counter, so
the loop auto-advances it to 3 — a jump that IS auto-advanced, where the
claim says jumps never are (the counter should have stayed at the jump
target 0x0001). -/
theorem c1_jmp_auto_advance_counterexample :
    cJmp.memory 0 = 0x4c ∧ CPU.mem_read_u16 cJmp 1 = 0x0001 ∧
    (runStep cJmp).isNext = true ∧ (runStep cJmp).pcOf = 3 ∧ (3 : Nat) ≠ 0x0001 := by
  decide

/-- Claim C2: for every CPU state with byte-valued memory, the indirect
jump sets the counter to the 16-bit little-endian value stored at the
operand address, EXCEPT when the operand address's low byte is 0xFF: then
the high byte of the fetched target is read from the same page's start
(the operand address with its low byte forced to 0x00, i.e.
256 * (addr / 256)), not from the following page. -/
theorem c2_jmp_indirect_page_bug (c : CPU) (hm : ∀ a, c.memory a < 256)
    (addr : Nat) (haddr : addr = c.mem_read_u16 c.program_counter) :
    (addr % 256 = 0xFF →
      (CPU.jmp_indirect c).program_counter
        = c.memory (256 * (addr / 256)) * 256 + c.memory addr) ∧
    (addr % 256 ≠ 0xFF →
      (CPU.jmp_indirect c).program_counter
        = c.memory addr + 256 * c.memory ((addr + 1) % 65536)) := by
  have haddr_lt : addr < 65536 := by
    rw [haddr]
    unfold CPU.mem_read_u16 CPU.mem_read
    rw [lor_shift8 _ _ (hm _)]
    have h1 := hm ((c.program_counter + 1) % 65536)
    have h2 := hm c.program_counter
    omega
  have hand : addr &&& 0x00FF = addr % 256 := by
    rw [show (0x00FF : Nat) = 2 ^ 8 - 1 by norm_num, Nat.and_pow_two_sub_one_eq_mod]
  constructor
  · intro hff
    unfold CPU.jmp_indirect
    dsimp only
    rw [← haddr]
    have hcond : (addr &&& 0x00FF == 0x00FF) = true := by
      rw [hand]; simp [hff]
    rw [if_pos hcond]
    unfold CPU.mem_read
    rw [and_ff00_eq addr haddr_lt, lor_shift8 _ _ (hm addr)]
    ring
  · intro hff
    unfold CPU.jmp_indirect
    dsimp only
    rw [← haddr]
    have hcond : ¬ ((addr &&& 0x00FF == 0x00FF) = true) := by
      rw [hand]; simp [hff]
    rw [if_neg hcond]
    unfold CPU.mem_read_u16 CPU.mem_read
    rw [lor_shift8 _ _ (hm addr)]
    ring

/-- Claim C2 witness: `JMP ($02FF)` with [$02FF]=0x11, [$0300]=0x22 and
[$0200]=0x33 jumps via the page-start byte: the counter becomes
0x33 * 256 + 0x11. -/
theorem c2_jmp_indirect_page_bug_witness :
    (CPU.jmp_indirect cJI).program_counter
      = cJI.memory (256 * (0x02FF / 256)) * 256 + cJI.memory 0x02FF :=
  (c2_jmp_indirect_page_bug cJI cJIMem_lt 0x02FF (by decide)).1 (by decide)

/-- Claim C5: add-with-carry computes the 16-bit sum A + operand +
carry-in, sets Carry iff the sum exceeds 255, stores the low byte in the
accumulator, sets Overflow iff ((old A XOR result) AND (operand XOR
result) AND 0x80) is nonzero, and sets Zero/Negative from the result;
in particular A=0x7F, operand=0x01, carry-in=0 gives result 0x80 with
Overflow set, Negative set, Carry clear. -/
theorem c5_adc_semantics (c : CPU) (value : Nat) :
    ((CPU.add_to_register_a c value).register_a
        = (c.register_a + value + (if c.status.carry then 1 else 0)) % 256) ∧
    ((CPU.add_to_register_a c value).status.carry
        = decide (255 < c.register_a + value + (if c.status.carry then 1 else 0))) ∧
    ((CPU.add_to_register_a c value).status.overflow
        = (((c.register_a ^^^ (c.register_a + value + (if c.status.carry then 1 else 0)) % 256) &&&
            (value ^^^ (c.register_a + value + (if c.status.carry then 1 else 0)) % 256) &&& 0x80) != 0)) ∧
    ((CPU.add_to_register_a c value).status.zero
        = ((c.register_a + value + (if c.status.carry then 1 else 0)) % 256 == 0)) ∧
    ((CPU.add_to_register_a c value).status.negative
        = (((c.register_a + value + (if c.status.carry then 1 else 0)) % 256 &&& 0x80) != 0)) ∧
    (CPU.add_to_register_a cAdc 1).register_a = 0x80 ∧
    (CPU.add_to_register_a cAdc 1).status.overflow = true ∧
    (CPU.add_to_register_a cAdc 1).status.negative = true ∧
    (CPU.add_to_register_a cAdc 1).status.carry = false :=
  ⟨rfl, rfl, rfl, rfl, rfl, by decide, by decide, by decide, by decide⟩

/-- Claim C8: the Bus masks every RAM-range address to its low 11 bits
before indexing, so a write at one address is read back at every address
in 0x0000–0x1FFF with the same low 11 bits. -/
theorem c8_ram_mirroring (b : Bus) (a1 a2 v : Nat) (h1 : a1 ≤ 0x1FFF)
    (h2 : a2 ≤ 0x1FFF) (hmirror : a1 &&& 0x7FF = a2 &&& 0x7FF) :
    ∃ b', Bus.mem_write b a1 v = some b' ∧ Bus.mem_read b' a2 = some v := by
  unfold Bus.mem_write Bus.mem_read
  rw [if_pos h1]
  refine ⟨_, rfl, ?_⟩
  rw [if_pos h2]
  simp [hmirror]

/-- Claim C8 witness: write 0xAB at 0x0000, read it back at 0x0800. -/
theorem c8_ram_mirroring_witness :
    ∃ b', Bus.mem_write Bus.new 0x0000 0xAB = some b' ∧
      Bus.mem_read b' 0x0800 = some 0xAB :=
  c8_ram_mirroring Bus.new 0x0000 0x0800 0xAB (by decide) (by decide) (by decide)

/-- Claim C9 (amended): for every input that holds the 8 header bytes and
whose header-declared trainer/program/character regions are in bounds (so
the unchecked slices cannot panic), `Rom::new` returns an error iff the
first four bytes differ from the iNES magic tag or the format-version
bits are nonzero, and every such accepted input yields a Rom; on shorter
inputs the loader panics via out-of-bounds indexing instead of returning
an error. -/
theorem c9_rom_new_amended (raw : List Nat) (h8 : 8 ≤ raw.length)
    (hb : romChrEnd raw ≤ raw.length) :
    ((Rom.new raw = RomResult.errMagic ∨ Rom.new raw = RomResult.errVersion) ↔
      (raw.take 4 ≠ NES_TAG ∨ (raw.getD 7 0 >>> 2) &&& 0b11 ≠ 0)) ∧
    (raw.take 4 = NES_TAG → (raw.getD 7 0 >>> 2) &&& 0b11 = 0 →
      ∃ rom, Rom.new raw = RomResult.ok rom) := by
  unfold Rom.new
  unfold romChrEnd at hb
  dsimp only
  rw [if_neg (by omega : ¬ raw.length < 4)]
  by_cases htag : raw.take 4 = NES_TAG
  · rw [if_neg (fun h => h htag)]
    rw [if_neg (by omega : ¬ raw.length < 8)]
    by_cases hver : (raw.getD 7 0 >>> 2) &&& 0b11 = 0
    · rw [if_neg (fun h => h hver)]
      rw [if_neg (by omega)]
      rw [if_neg (by omega)]
      constructor
      · constructor
        · intro h
          rcases h with h | h <;> exact absurd h (by simp)
        · intro h
          rcases h with h | h
          · exact absurd htag h
          · exact absurd hver h
      · exact fun _ _ => ⟨_, rfl⟩
    · rw [if_pos hver]
      constructor
      · constructor
        · intro _
          exact Or.inr hver
        · intro _
          exact Or.inr rfl
      · exact fun _ h => absurd h hver
  · rw [if_pos htag]
    constructor
    · constructor
      · intro _
        exact Or.inl htag
      · intro _
        exact Or.inl rfl
    · exact fun h _ => absurd h htag

/-- Claim C9 witness: a 16-byte image with the correct tag and all counts
zero is accepted and yields a Rom. -/
theorem c9_rom_new_amended_witness :
    ∃ rom, Rom.new validRom = RomResult.ok rom :=
  (c9_rom_new_amended validRom (by decide) (by decide)).2 (by decide) (by decide)

/-- Claim C9 counterexample: on the empty input the loader panics (the
slice `&raw[0..=3]` is out of bounds) instead of returning the
bad-magic error the claim requires. -/
theorem c9_rom_new_panics_counterexample :
    Rom.new [] = RomResult.panicked ∧
    RomResult.panicked ≠ RomResult.errMagic ∧
    (∀ rom, RomResult.panicked ≠ RomResult.ok rom) :=
  ⟨by decide, by decide, fun rom h => RomResult.noConfusion h⟩

/-- Claim C10: one step of the run loop never touches the Bus the CPU
holds (whether it continues or halts, the bus is unchanged, and the
non-bus outcome is independent of the bus contents); `reset` likewise
reads its vector from the private array; and the Mem-trait interface of
the CPU goes only to the Bus — its reads ignore the private array and its
writes leave the private array unchanged. -/
theorem c10_frame_effect (c : CPU) (b : Bus) (m : Nat → Nat) (addr v : Nat) :
    (∀ c', runStep c = StepResult.next c' → c'.bus = c.bus) ∧
    (∀ c', runStep c = StepResult.halted c' → c'.bus = c.bus) ∧
    (∀ c', runStep c = StepResult.next c' →
      runStep { c with bus := b } = StepResult.next { c' with bus := b }) ∧
    (CPU.reset { c with bus := b }).program_counter = (CPU.reset c).program_counter ∧
    (CPU.reset c).bus = c.bus ∧
    CPU.trait_mem_read c addr = Bus.mem_read c.bus addr ∧
    CPU.trait_mem_read { c with memory := m } addr = CPU.trait_mem_read c addr ∧
    (∀ c', CPU.trait_mem_write c addr v = some c' → c'.memory = c.memory) := by
  refine ⟨?_, ?_, ?_, rfl, rfl, rfl, rfl, ?_⟩
  · intro c' h
    unfold runStep at h
    dsimp only at h
    rcases hop : opcodeLookup (c.mem_read c.program_counter) with _ | op
    · rw [hop] at h
      exact StepResult.noConfusion h
    · rw [hop] at h
      dsimp only at h
      rcases hex : execInstr op.code op.addr_mode (fetchBump c) with c2 | _ | _
      · rw [hex] at h
        dsimp only at h
        injection h with h
        subst h
        have hb2 : c2.bus = (fetchBump c).bus := exec_ok_bus hex
        by_cases hpc : (fetchBump c).program_counter = c2.program_counter
        · rw [if_pos hpc]
          exact hb2
        · rw [if_neg hpc]
          exact hb2
      · rw [hex] at h
        exact StepResult.noConfusion h
      · rw [hex] at h
        exact StepResult.noConfusion h
  · intro c' h
    unfold runStep at h
    dsimp only at h
    rcases hop : opcodeLookup (c.mem_read c.program_counter) with _ | op
    · rw [hop] at h
      exact StepResult.noConfusion h
    · rw [hop] at h
      dsimp only at h
      rcases hex : execInstr op.code op.addr_mode (fetchBump c) with c2 | _ | _
      · rw [hex] at h
        dsimp only at h
        exact StepResult.noConfusion h
      · rw [hex] at h
        injection h with h
        subst h
        rfl
      · rw [hex] at h
        exact StepResult.noConfusion h
  · intro c' h
    unfold runStep at h ⊢
    dsimp only [CPU.mem_read] at h ⊢
    rcases hop : opcodeLookup (c.memory c.program_counter) with _ | op
    · rw [hop] at h
      exact StepResult.noConfusion h
    · rw [hop] at h
      dsimp only at h ⊢
      rw [show fetchBump { c with bus := b } = { fetchBump c with bus := b } from rfl]
      rw [exec_bus_congr op.code op.addr_mode (fetchBump c) b]
      rcases hex : execInstr op.code op.addr_mode (fetchBump c) with c2 | _ | _
      · rw [hex] at h
        dsimp only at h ⊢
        by_cases hpc : (fetchBump c).program_counter = c2.program_counter
        · rw [if_pos hpc] at h
          rw [if_pos hpc]
          injection h with h
          subst h
          rfl
        · rw [if_neg hpc] at h
          rw [if_neg hpc]
          injection h with h
          subst h
          rfl
      · rw [hex] at h
        dsimp only at h
        exact StepResult.noConfusion h
      · rw [hex] at h
        dsimp only at h
        exact StepResult.noConfusion h
  · intro c' h
    unfold CPU.trait_mem_write at h
    rcases hw : Bus.mem_write c.bus addr v with _ | b2
    · rw [hw] at h
      exact Option.noConfusion h
    · rw [hw] at h
      dsimp only [Option.map] at h
      injection h with h
      subst h
      rfl

/-- Claim C10 witness: one NOP step leaves the bus unchanged. -/
theorem c10_frame_effect_witness :
    ({ cNop with program_counter := 1 } : CPU).bus = cNop.bus :=
  (c10_frame_effect cNop Bus.new (fun _ => 0) 0 0).1
    { cNop with program_counter := 1 } rfl
